import Mathlib

/-!
Verification of the autocoder repository's safety controls, execution
engine, and autonomous development loop against its specification.

The Python sources are shallowly embedded: pure string logic is
translated to computable Lean functions over `List Char` / `String`,
stateful code (execution history, the development loop's accumulating
lists) becomes explicit state passing, and external effects (language
models, subprocesses, package installation, the human-approval prompt)
become explicit oracle parameters, so that every embedded function is
executable on concrete inputs.
-/

namespace Autocoder

/-! ## Character and string utilities

Helpers mirroring the Python string primitives used by the sources:
`str.lower`, `str.strip`, the `in` substring test, `str.startswith`
and `str.endswith`. -/

/-- Python `str.lower` restricted to the ASCII commands this code handles. -/
def toLowerList (l : List Char) : List Char := l.map Char.toLower

/-- Python `str.strip`: drop whitespace from both ends. -/
def stripList (l : List Char) : List Char :=
  ((l.dropWhile Char.isWhitespace).reverse.dropWhile Char.isWhitespace).reverse

/-- Python `needle in hay`: contiguous substring test. -/
def containsSub (needle hay : List Char) : Bool :=
  match hay with
  | [] => needle.isEmpty
  | _ :: t => needle.isPrefixOf hay || containsSub needle t

/-- The ASCII single-quote character (written via its code point so it can
appear inside generated message strings). -/
def squoteChar : Char := Char.ofNat 39

/-- A single-quote as a one-character string, for building messages that
quote a package name the way the Python f-strings do. -/
def qt : String := "\x27"

/-! ## safety_controls.py: data model

`RiskLevel` and `SafetyVerdict` from src/safety_controls.py. -/

/-- Risk levels for command execution (class RiskLevel). -/
inductive RiskLevel where
  | safe
  | caution
  | warning
  | danger
  | forbidden
  deriving DecidableEq, Repr

/-- Result of safety validation (dataclass SafetyVerdict); field defaults
match the dataclass defaults. -/
structure SafetyVerdict where
  risk_level : RiskLevel
  allowed : Bool
  reason : String
  suggested_alternative : Option String := none
  requires_approval : Bool := false
  deriving DecidableEq, Repr

/-! ## safety_controls.py: CommandValidator fixed sets

The literal sets from `CommandValidator.__init__`. Python `set` iteration
order is irrelevant here because the sets are only consumed through
`any(...)`; the alternatives table, a `dict`, keeps insertion order. -/

/-- Commands that are always safe (self.safe_commands). -/
def safe_commands : List String :=
  ["python", "python3", "pip", "ls", "dir", "cat", "type", "head", "tail",
   "mkdir", "cd", "pwd", "echo", "grep", "find", "wc", "sort", "uniq",
   "git status", "git diff", "git log", "pytest", "python -m"]

/-- Commands that require careful validation (self.caution_commands). -/
def caution_commands : List String :=
  ["pip install", "pip uninstall", "git add", "git commit",
   "cp", "copy", "mv", "move", "touch", "nano", "vim"]

/-- Commands that need human approval (self.dangerous_commands). -/
def dangerous_commands : List String :=
  ["rm", "del", "rmdir", "git push", "git pull", "git merge",
   "chmod", "chown", "sudo", "su", "systemctl", "service"]

/-- Commands that are absolutely forbidden (self.forbidden_commands);
the fork-bomb pattern's braces are written with escapes. -/
def forbidden_commands : List String :=
  ["rm -rf", "format", "fdisk", "dd", "mkfs", ":()\x7b :|:& \x7d;:",
   "curl | bash", "wget | bash", "eval", "exec", "shutdown", "reboot"]

/-- Dangerous package names (self.dangerous_packages). -/
def dangerous_packages : List String :=
  ["subprocess", "os", "sys", "eval", "exec", "compile"]

/-- Alternatives table of `_suggest_safe_alternative`, in dict insertion
order (the order matters: the first matching key wins). -/
def alternatives : List (String × String) :=
  [("rm -rf", "Use specific file deletion: rm filename.txt"),
   ("sudo", "Run commands without elevated privileges"),
   ("curl | bash", "Download first, then review before executing"),
   ("rm", "Specify exact files to delete, avoid wildcards")]

/-! ## safety_controls.py: predicate helpers -/

/-- CommandValidator._is_forbidden: some forbidden entry is a substring of
the lowercased command. -/
def is_forbidden (cmd : List Char) : Bool :=
  forbidden_commands.any (fun f => containsSub f.toList (toLowerList cmd))

/-- CommandValidator._is_dangerous. -/
def is_dangerous (cmd : List Char) : Bool :=
  dangerous_commands.any (fun d => containsSub d.toList (toLowerList cmd))

/-- CommandValidator._requires_caution. -/
def requires_caution (cmd : List Char) : Bool :=
  caution_commands.any (fun c => containsSub c.toList (toLowerList cmd))

/-- CommandValidator._is_safe: the lowercased command starts with a
lowercased safe entry. -/
def is_safe (cmd : List Char) : Bool :=
  safe_commands.any (fun s => (toLowerList s.toList).isPrefixOf (toLowerList cmd))

/-- CommandValidator._suggest_safe_alternative: first alternatives entry
whose key occurs in the lowercased command. -/
def suggest_safe_alternative (dangerous_command : List Char) : Option String :=
  (alternatives.find?
      (fun kv => containsSub kv.1.toList (toLowerList dangerous_command))).map (·.2)

/-! ## shlex.split

`_validate_pip_install` tokenizes with Python `shlex.split` (POSIX mode).
Embedded here for the constructs these commands use: whitespace
separation, single and double quotes taken literally, and a backslash
escaping the next character outside quotes.  An unterminated quote or a
trailing backslash raises `ValueError` in Python, modelled as `none`. -/

/-- Tokenizer mode: outside quotes, inside single quotes, inside double
quotes. -/
inductive ShMode where
  | normal
  | inSingle
  | inDouble
  deriving DecidableEq

/-- One step at a time over the characters; `cur = some t` is the token
being accumulated (`some []` after an empty quoted string). -/
def shlexGo : ShMode → Option (List Char) → List Char → Option (List (List Char))
  | .normal, none, [] => some []
  | .normal, some t, [] => some [t]
  | .inSingle, _, [] => none
  | .inDouble, _, [] => none
  | .normal, cur, c :: rest =>
    if c.isWhitespace then
      match cur with
      | none => shlexGo .normal none rest
      | some t => (shlexGo .normal none rest).map (t :: ·)
    else if c = squoteChar then shlexGo .inSingle (some (cur.getD [])) rest
    else if c = '"' then shlexGo .inDouble (some (cur.getD [])) rest
    else if c = '\\' then
      match rest with
      | [] => none
      | d :: rest2 => shlexGo .normal (some (cur.getD [] ++ [d])) rest2
    else shlexGo .normal (some (cur.getD [] ++ [c])) rest
  | .inSingle, cur, c :: rest =>
    if c = squoteChar then shlexGo .normal cur rest
    else shlexGo .inSingle (some (cur.getD [] ++ [c])) rest
  | .inDouble, cur, c :: rest =>
    if c = '"' then shlexGo .normal cur rest
    else shlexGo .inDouble (some (cur.getD [] ++ [c])) rest

/-- Python `shlex.split(command)`; `none` models the `ValueError` caught
by `_validate_pip_install`'s `except` clause. -/
def shlexSplit (l : List Char) : Option (List (List Char)) :=
  shlexGo .normal none l

/-! ## safety_controls.py: pip install validation -/

/-- A character of the regex class `[a-zA-Z0-9_-]`. -/
def isIdentTailChar (c : Char) : Bool :=
  c.isAlpha || c.isDigit || c = '_' || c = '-'

/-- The safe package pattern `^[a-zA-Z][a-zA-Z0-9_-]*$`. -/
def matchesBare (p : List Char) : Bool :=
  match p with
  | [] => false
  | c :: rest => c.isAlpha && rest.all isIdentTailChar

/-- The safe package pattern `^[a-zA-Z][a-zA-Z0-9_-]*==[\d.]+$`; since `=`
is not an identifier character the greedy name part is the maximal
identifier prefix. -/
def matchesPinned (p : List Char) : Bool :=
  match p with
  | [] => false
  | c :: rest =>
    c.isAlpha &&
      (match rest.drop (rest.takeWhile isIdentTailChar).length with
       | '=' :: '=' :: ver =>
         !ver.isEmpty && ver.all (fun d => d.isDigit || d = '.')
       | _ => false)

/-- One of self.safe_package_patterns matches
(`any(re.match(pattern, package) ...)`). -/
def matchesSafePattern (p : List Char) : Bool :=
  matchesBare p || matchesPinned p

/-- Membership of `package.lower()` in self.dangerous_packages. -/
def isDangerousPackage (p : List Char) : Bool :=
  dangerous_packages.any (fun d => d.toList == toLowerList p)

/-- Verdict for a blocklisted package (the DANGER return inside the
package loop of `_validate_pip_install`). -/
def dangerPackageVerdict (p : List Char) : SafetyVerdict :=
  { risk_level := .danger
    allowed := false
    reason := "Package " ++ qt ++ p.asString ++ qt ++ " is potentially dangerous"
    requires_approval := true }

/-- Verdict for a package name failing both safe patterns. -/
def badPatternVerdict (p : List Char) : SafetyVerdict :=
  { risk_level := .warning
    allowed := false
    reason := "Package name " ++ qt ++ p.asString ++ qt
      ++ " doesn" ++ qt ++ "t match safe patterns"
    requires_approval := true }

/-- Verdict when all packages pass, naming the approved packages. -/
def approvedVerdict (packages : List (List Char)) : SafetyVerdict :=
  { risk_level := .caution
    allowed := true
    reason := "Package installation approved: "
      ++ String.intercalate ", " (packages.map List.asString) }

/-- The `for package in packages` loop of `_validate_pip_install`:
first blocklisted package wins, then first pattern failure, else
CAUTION naming all packages. -/
def validatePackages (allPackages : List (List Char)) :
    List (List Char) → SafetyVerdict
  | [] => approvedVerdict allPackages
  | p :: rest =>
    if isDangerousPackage p then dangerPackageVerdict p
    else if matchesSafePattern p = false then badPatternVerdict p
    else validatePackages allPackages rest

/-- CommandValidator._validate_pip_install on the (already stripped)
command characters. -/
def validate_pip_install (cmd : List Char) : SafetyVerdict :=
  match shlexSplit cmd with
  | none =>
    { risk_level := .warning
      allowed := false
      reason := "Could not parse pip install command"
      requires_approval := true }
  | some parts =>
    match parts with
    | p0 :: p1 :: rest =>
      if rest.isEmpty || p0 ≠ "pip".toList || p1 ≠ "install".toList then
        { risk_level := .warning
          allowed := false
          reason := "Invalid pip install command format" }
      else
        let packages := rest.filter (fun p => p.head? ≠ some '-')
        validatePackages packages packages
    | _ =>
      { risk_level := .warning
        allowed := false
        reason := "Invalid pip install command format" }

/-! ## safety_controls.py: validate_command and validate_file_operation -/

/-- CommandValidator.validate_command.  The `context` argument is unused
by the source, exactly as here. -/
def validate_command (command : String) (context : String) : SafetyVerdict :=
  let cmd := stripList command.toList
  if is_forbidden cmd then
    { risk_level := .forbidden
      allowed := false
      reason := "Command contains forbidden operations"
      suggested_alternative := suggest_safe_alternative cmd }
  else if is_dangerous cmd then
    { risk_level := .danger
      allowed := false
      reason := "Command requires human approval due to system modification risk"
      requires_approval := true }
  else if requires_caution cmd then
    if containsSub "pip install".toList cmd then validate_pip_install cmd
    else
      { risk_level := .caution
        allowed := true
        reason := "Command allowed with monitoring" }
  else if is_safe cmd then
    { risk_level := .safe
      allowed := true
      reason := "Command is on safe list" }
  else
    { risk_level := .warning
      allowed := false
      reason := "Unknown command pattern - requires validation"
      requires_approval := true }

/-- Allow-listed working directories of validate_file_operation. -/
def allowed_dirs : List String := ["ai_workspace", "generated_code", "temp", "."]

/-- Recognized system directories of validate_file_operation. -/
def system_paths : List String := ["/etc", "/sys", "/proc", "C:\\Windows", "C:\\System"]

/-- The filepath starts with one of the allow-listed directories
(`filepath.startswith(allowed_dir)`). -/
def fileStartsAllowed (filepath : String) : Bool :=
  allowed_dirs.any (fun d => d.toList.isPrefixOf filepath.toList)

/-- Some recognized system directory occurs in the filepath
(`system_path in filepath`). -/
def fileTouchesSystem (filepath : String) : Bool :=
  system_paths.any (fun p => containsSub p.toList filepath.toList)

/-- CommandValidator.validate_file_operation.  The allow-list check runs
first; the system-path check is only reached by paths that start with an
allow-listed directory. -/
def validate_file_operation (filepath : String) (operation : String) : SafetyVerdict :=
  if fileStartsAllowed filepath = false then
    { risk_level := .danger
      allowed := false
      reason := "File operation outside allowed directories: " ++ filepath
      requires_approval := true }
  else if fileTouchesSystem filepath then
    { risk_level := .forbidden
      allowed := false
      reason := "Access to system directories is forbidden" }
  else
    { risk_level := .safe
      allowed := true
      reason := "File operation within safe boundaries" }

/-! ## execution_engine.py: data model

`ExecutionResult` from src/execution_engine.py.  The `timestamp` and
`resource_usage` fields (wall-clock and process metrics) are omitted as
environment noise; `execution_time` is modelled in abstract integral
units instead of a float. -/

/-- Result of command or code execution (dataclass ExecutionResult). -/
structure ExecutionResult where
  command : String
  stdout : String
  stderr : String
  exit_code : Int
  execution_time : Int
  success : Bool
  error_type : Option String := none
  suggested_fixes : List String := []
  deriving DecidableEq, Repr

/-- Configured default `safety.max_execution_time` (config.py). -/
def max_execution_time : Int := 30

/-- Line 69 of execute_command:
`timeout = timeout or self.config.safety.max_execution_time`.
Python truthiness sends both `None` and `0` to the default. -/
def resolve_timeout (timeout : Option Int) (default : Int) : Int :=
  match timeout with
  | none => default
  | some t => if t = 0 then default else t

/-! ## execution_engine.py: error classification -/

/-- AutonomousExecutor._classify_error: ordered case-insensitive
substring table over stderr. -/
def classify_error (stderr : String) : String :=
  let s := toLowerList stderr.toList
  if containsSub "modulenotfounderror".toList s
      || containsSub "no module named".toList s then "MISSING_MODULE"
  else if containsSub "syntaxerror".toList s then "SYNTAX_ERROR"
  else if containsSub "indentationerror".toList s then "INDENTATION_ERROR"
  else if containsSub "nameerror".toList s then "NAME_ERROR"
  else if containsSub "typeerror".toList s then "TYPE_ERROR"
  else if containsSub "valueerror".toList s then "VALUE_ERROR"
  else if containsSub "filenotfounderror".toList s then "FILE_NOT_FOUND"
  else if containsSub "permissionerror".toList s then "PERMISSION_ERROR"
  else "UNKNOWN_ERROR"

/-! ## Missing-module regex scanning

`extract_missing_packages` (ai_agents.py) and `_suggest_error_fixes`
(execution_engine.py) scan stderr with the regexes
`No module named '([^']+)'`, `ModuleNotFoundError: No module named '([^']+)'`
and `ImportError: No module named ([^\s]+)`.  The scanners below embed
`re.findall` for exactly these shapes: a literal marker (for the first
two, ending in the opening quote) followed by a nonempty capture, with
matches taken left to right without overlap. -/

/-- Literal marker of the first pattern, opening quote included. -/
def markerQuoted : List Char := "No module named ".toList ++ [squoteChar]

/-- Literal marker of the second pattern. -/
def markerModuleNotFound : List Char :=
  "ModuleNotFoundError: No module named ".toList ++ [squoteChar]

/-- Literal marker of the third (Python-2 style) pattern. -/
def markerImportErr : List Char := "ImportError: No module named ".toList

/-- findall for `marker([^']+)'` where marker ends with the opening
quote: at each position try the marker, capture up to the closing quote,
and continue after it; fuel bounds the scan (callers pass the input
length, which always suffices since every step consumes a character). -/
def scanQuotedFuel (marker : List Char) : Nat → List Char → List (List Char)
  | 0, _ => []
  | _ + 1, [] => []
  | fuel + 1, c :: rest =>
    if marker.isPrefixOf (c :: rest) then
      let after := (c :: rest).drop marker.length
      let cap := after.takeWhile (fun d => d ≠ squoteChar)
      if cap.isEmpty then scanQuotedFuel marker fuel rest
      else
        match after.drop cap.length with
        | _ :: rest2 => cap :: scanQuotedFuel marker fuel rest2
        | [] => []
    else scanQuotedFuel marker fuel rest

/-- findall for `marker([^\s]+)`: capture a nonempty run of
non-whitespace after the marker. -/
def scanToWsFuel (marker : List Char) : Nat → List Char → List (List Char)
  | 0, _ => []
  | _ + 1, [] => []
  | fuel + 1, c :: rest =>
    if marker.isPrefixOf (c :: rest) then
      let after := (c :: rest).drop marker.length
      let cap := after.takeWhile (fun d => !d.isWhitespace)
      if cap.isEmpty then scanToWsFuel marker fuel rest
      else cap :: scanToWsFuel marker fuel (after.drop cap.length)
    else scanToWsFuel marker fuel rest

/-- Python `list(set(xs))` keeps one copy of each element; the set
iteration order is unspecified, modelled deterministically by keeping
first occurrences. -/
def pyDedup (l : List String) : List String :=
  l.foldl (fun acc s => if s ∈ acc then acc else acc ++ [s]) []

/-- extract_missing_packages (ai_agents.py): union of the three
patterns' captures, deduplicated. -/
def extract_missing_packages (error_message : String) : List String :=
  let chars := error_message.toList
  let fuel := chars.length + 1
  pyDedup
    ((scanQuotedFuel markerQuoted fuel chars
        ++ scanQuotedFuel markerModuleNotFound fuel chars
        ++ scanToWsFuel markerImportErr fuel chars).map List.asString)

/-- AutonomousExecutor._suggest_error_fixes: canned advice per error
category; for MISSING_MODULE the first captured module name is turned
into an install command. -/
def suggest_error_fixes (stderr : String) (command : String) : List String :=
  let et := classify_error stderr
  if et = "MISSING_MODULE" then
    match scanQuotedFuel markerQuoted (stderr.toList.length + 1) stderr.toList with
    | m :: _ => ["Install missing module: pip install " ++ m.asString]
    | [] => []
  else if et = "SYNTAX_ERROR" then
    ["Check Python syntax - look for missing colons, parentheses, or quotes",
     "Verify indentation is consistent"]
  else if et = "INDENTATION_ERROR" then
    ["Fix indentation - use consistent spaces or tabs",
     "Check that code blocks are properly indented"]
  else if et = "FILE_NOT_FOUND" then
    ["Check that the file path is correct",
     "Ensure the file exists in the expected location"]
  else if et = "PERMISSION_ERROR" then
    ["Check file permissions",
     "Ensure you have write access to the target directory"]
  else []

/-! ## execution_engine.py: execute_command

Lines 74-99 of execute_command form the pre-spawn safety gate.  The
human-approval prompt (`_request_human_approval`, a blocking console
loop ending in approve or deny) is modelled by the boolean oracle
`approve`; the instrumentation bit `approval_requested` records whether
the prompt was invoked at all.  A `blocked = some r` outcome is a return
taken before any subprocess is spawned. -/

/-- The exit -1 SAFETY_VIOLATION result (lines 78-86). -/
def safety_violation_result (command : String) (reason : String) : ExecutionResult :=
  { command := command
    stdout := ""
    stderr := "Command blocked by safety controls: " ++ reason
    exit_code := -1
    execution_time := 0
    success := false
    error_type := some "SAFETY_VIOLATION" }

/-- The exit -2 USER_DENIED result (lines 90-98). -/
def user_denied_result (command : String) : ExecutionResult :=
  { command := command
    stdout := ""
    stderr := "Command execution denied by user"
    exit_code := -2
    execution_time := 0
    success := false
    error_type := some "USER_DENIED" }

/-- Outcome of the pre-spawn gate. -/
structure GateOutcome where
  blocked : Option ExecutionResult
  approval_requested : Bool
  deriving DecidableEq, Repr

/-- The gate of execute_command applied to a verdict: the `not allowed`
check runs first and returns -1; only verdicts that survive it and have
`requires_approval` reach the prompt. -/
def safety_gate (verdict : SafetyVerdict) (command : String) (approve : Bool) :
    GateOutcome :=
  if verdict.allowed = false then
    { blocked := some (safety_violation_result command verdict.reason)
      approval_requested := false }
  else if verdict.requires_approval then
    if approve then { blocked := none, approval_requested := true }
    else { blocked := some (user_denied_result command), approval_requested := true }
  else { blocked := none, approval_requested := false }

/-- What the spawned subprocess did, as an oracle: normal completion
with captured streams and exit code, a timeout, or a raised exception
(`_execute_with_monitoring`). -/
inductive RunOutcome where
  | completed (stdout stderr : String) (exit_code : Int)
  | timedOut
  | raised (msg : String)
  deriving DecidableEq, Repr

/-- AutonomousExecutor.execute_command with the execution history
threaded explicitly: returns the result and the new history.  Only the
normal-completion path appends to the history (line 122); the
safety-blocked, user-denied, timeout and exception paths return without
recording. -/
def execute_command_model (hist : List ExecutionResult)
    (command context : String) (approve : Bool) (run : RunOutcome)
    (timeout : Option Int) (elapsed : Int) :
    ExecutionResult × List ExecutionResult :=
  let t := resolve_timeout timeout max_execution_time
  match (safety_gate (validate_command command context) command approve).blocked with
  | some r => (r, hist)
  | none =>
    match run with
    | .completed out err code =>
      let base : ExecutionResult :=
        { command := command
          stdout := out
          stderr := err
          exit_code := code
          execution_time := elapsed
          success := code = 0 }
      let r :=
        if base.success then base
        else
          { base with
              error_type := some (classify_error err)
              suggested_fixes := suggest_error_fixes err command }
      (r, hist ++ [r])
    | .timedOut =>
      ({ command := command
         stdout := ""
         stderr := "Command timed out after " ++ toString t ++ " seconds"
         exit_code := -3
         execution_time := t
         success := false
         error_type := some "TIMEOUT" }, hist)
    | .raised msg =>
      ({ command := command
         stdout := ""
         stderr := "Execution error: " ++ msg
         exit_code := -4
         execution_time := elapsed
         success := false
         error_type := some "EXECUTION_ERROR" }, hist)

/-! ## execution_engine.py: execute_python_code file handling

The workspace is modelled as an association list from file names to
contents (directory creation is implicit in this flat map).  A write
shadows any earlier entry, as `open(..., 'w')` truncates. -/

/-- Write a file, overwriting any previous content. -/
def write_file (fs : List (String × String)) (name content : String) :
    List (String × String) :=
  (name, content) :: fs

/-- Read a file back. -/
def read_file (fs : List (String × String)) (name : String) : Option String :=
  (fs.find? (fun e => e.1 == name)).map (·.2)

/-- The filename ends in `.py`. -/
def ends_with_py (s : String) : Bool :=
  ".py".toList.isSuffixOf s.toList

/-- Filename resolution of execute_python_code (lines 160-167):
a falsy filename (absent or empty) becomes a timestamped name, then the
`.py` extension is forced.  `ts` stands in for the strftime timestamp. -/
def resolve_filename (filename : Option String) (ts : String) : String :=
  let base :=
    match filename with
    | none => "auto_generated_" ++ ts ++ ".py"
    | some f => if f.isEmpty then "auto_generated_" ++ ts ++ ".py" else f
  if ends_with_py base then base else base ++ ".py"

/-- The file-writing portion of execute_python_code: resolve the name
and write `code` verbatim into the workspace; returns the new workspace
and the name the interpreter is then invoked on. -/
def execute_python_code_fs (fs : List (String × String)) (code : String)
    (filename : Option String) (ts : String) :
    List (String × String) × String :=
  let name := resolve_filename filename ts
  (write_file fs name code, name)

/-! ## ai_agents.py: autonomous_develop_with_execution

The development loop.  External effects are oracles in `LoopEnv`:
`coder i errs` is the Qwen3 code generation for iteration `i` given the
errors accumulated so far (the source builds its prompt from the plan
and the last three errors); `exec pkgs code filename` is
`executor.execute_python_code` in an environment where `pkgs` have been
installed so far; `install pkg` is the success bit of
`executor.install_package`. -/

/-- Oracles for the loop's external effects. -/
structure LoopEnv where
  coder : Nat → List String → String
  exec : List String → String → String → ExecutionResult
  install : String → Bool

/-- The loop's mutable locals (lines 403-406), plus the instrumentation
counter `coder_calls` counting code-generation calls. -/
structure LoopAcc where
  execution_results : List ExecutionResult := []
  errors_encountered : List String := []
  packages_installed : List String := []
  last_code : String := ""
  coder_calls : Nat := 0
  deriving Repr

/-- Final report of a run (dataclass AutonomousResult). -/
structure AutonomousResult where
  success : Bool
  final_code : String
  execution_results : List ExecutionResult
  iterations : Nat
  final_output : String
  errors_encountered : List String
  packages_installed : List String
  deriving Repr

/-- A run's result together with the number of Coder calls made. -/
structure LoopRun where
  result : AutonomousResult
  coder_calls : Nat
  deriving Repr

/-- The Coder sentinel-failure check (`generated_code.startswith("Error:")`). -/
def startsWithError (s : String) : Bool :=
  "Error:".toList.isPrefixOf s.toList

/-- Filename used at iteration `i` (0-based here; the source displays
`iteration + 1`). -/
def iterFilename (i : Nat) : String :=
  "autonomous_iteration_" ++ toString (i + 1) ++ ".py"

/-- The `for package in missing_packages` repair loop (lines 458-480):
install each extracted package; on success append it and immediately
re-execute the same code; stop with the retry stdout if the retry
succeeds. -/
def repairLoop (env : LoopEnv) (code filename : String) :
    LoopAcc → List String → LoopAcc × Option String
  | acc, [] => (acc, none)
  | acc, pkg :: rest =>
    if env.install pkg then
      let acc1 := { acc with
        packages_installed := acc.packages_installed ++ [pkg] }
      let retry := env.exec acc1.packages_installed code (filename ++ "_retry")
      let acc2 := { acc1 with
        execution_results := acc1.execution_results ++ [retry] }
      if retry.success then (acc2, some retry.stdout)
      else repairLoop env code filename acc2 rest
    else repairLoop env code filename acc rest

/-- The `for iteration in range(max_iterations)` body (lines 408-492),
recursing over the remaining iteration indices. -/
def runIters (env : LoopEnv) (maxIter : Nat) :
    LoopAcc → List Nat → LoopRun
  | acc, [] =>
    { result :=
        { success := false
          final_code := acc.last_code
          execution_results := acc.execution_results
          iterations := maxIter
          final_output := "Max iterations reached without success"
          errors_encountered := acc.errors_encountered
          packages_installed := acc.packages_installed }
      coder_calls := acc.coder_calls }
  | acc, i :: rest =>
    let code := env.coder i acc.errors_encountered
    let acc1 := { acc with coder_calls := acc.coder_calls + 1, last_code := code }
    if startsWithError code then
      { result :=
          { success := false
            final_code := code
            execution_results := acc1.execution_results
            iterations := i + 1
            final_output := "Code generation failed"
            errors_encountered := acc1.errors_encountered
            packages_installed := acc1.packages_installed }
        coder_calls := acc1.coder_calls }
    else
      let r := env.exec acc1.packages_installed code (iterFilename i)
      let acc2 := { acc1 with
        execution_results := acc1.execution_results ++ [r] }
      if r.success then
        { result :=
            { success := true
              final_code := code
              execution_results := acc2.execution_results
              iterations := i + 1
              final_output := r.stdout
              errors_encountered := acc2.errors_encountered
              packages_installed := acc2.packages_installed }
          coder_calls := acc2.coder_calls }
      else
        let acc3 := { acc2 with
          errors_encountered := acc2.errors_encountered ++ [r.stderr] }
        if r.error_type == some "MISSING_MODULE" then
          match repairLoop env code (iterFilename i) acc3
              (extract_missing_packages r.stderr) with
          | (acc4, some out) =>
            { result :=
                { success := true
                  final_code := code
                  execution_results := acc4.execution_results
                  iterations := i + 1
                  final_output := out
                  errors_encountered := acc4.errors_encountered
                  packages_installed := acc4.packages_installed }
              coder_calls := acc4.coder_calls }
          | (acc4, none) => runIters env maxIter acc4 rest
        else runIters env maxIter acc3 rest

/-- autonomous_develop_with_execution(task, max_iterations): run the
loop from the empty accumulators over iterations 0..max_iterations-1. -/
def autonomous_develop_with_execution (env : LoopEnv) (max_iterations : Nat) :
    LoopRun :=
  runIters env max_iterations {} (List.range max_iterations)

/-! ## Concrete oracle environments

Closed instances of the oracles, used to evaluate the theorems below on
concrete runs (they play the role of the spec's stubbed Coder and
installer). -/

/-- Modelled from the spec wording of the package-blocklist property:
the bare name of a package token is its part before any version pin.
Used only to compare the spec wording with the source behaviour. -/
def specBareName (p : String) : String :=
  (p.toList.takeWhile (fun c => c ≠ '=')).asString

/-- The stderr Python prints for a missing module `foo`. -/
def fooErr : String :=
  "ModuleNotFoundError: No module named " ++ qt ++ "foo" ++ qt

/-- A successful execution of generated code. -/
def okRun : ExecutionResult :=
  { command := "python3 code.py"
    stdout := "ok"
    stderr := ""
    exit_code := 0
    execution_time := 0
    success := true }

/-- A failed execution whose stderr reports the missing module `foo`,
classified the way the engine classifies it. -/
def fooFailRun : ExecutionResult :=
  { command := "python3 code.py"
    stdout := ""
    stderr := fooErr
    exit_code := 1
    execution_time := 0
    success := false
    error_type := some (classify_error fooErr) }

/-- Environment whose Coder immediately returns the error sentinel. -/
def errEnv : LoopEnv :=
  { coder := fun _ _ => "Error: upstream failure"
    exec := fun _ _ _ => okRun
    install := fun _ => false }

/-- Environment for the auto-repair scenario: the generated code fails
with a missing module until `foo` has been installed, and the stubbed
installer always succeeds. -/
def repairEnv : LoopEnv :=
  { coder := fun _ _ => "import foo"
    exec := fun pkgs _ _ => if "foo" ∈ pkgs then okRun else fooFailRun
    install := fun _ => true }

/-- Environment where installing succeeds but the code keeps failing
with the same missing module, so the repair never helps. -/
def stuckEnv : LoopEnv :=
  { coder := fun _ _ => "import foo"
    exec := fun _ _ _ => fooFailRun
    install := fun _ => true }

/-! ## Helper lemmas -/

/-- A list is a boolean prefix of itself followed by anything. -/
theorem isPrefixOf_append_self (l t : List Char) :
    l.isPrefixOf (l ++ t) = true := by
  induction l with
  | nil => simp
  | cons c cs ih => simp [List.isPrefixOf_cons₂, ih]

/-- Appending the `.py` extension really produces a `.py` name. -/
theorem ends_with_py_append (s : String) : ends_with_py (s ++ ".py") = true := by
  have hdata : (s ++ ".py").toList = s.toList ++ ".py".toList := by
    cases s
    rfl
  simp [ends_with_py, List.isSuffixOf, hdata, isPrefixOf_append_self]

/-- The forced-extension step always yields a `.py` name. -/
theorem ends_with_py_force (base : String) :
    ends_with_py (if ends_with_py base then base else base ++ ".py") = true := by
  by_cases h : ends_with_py base
  · simp [h]
  · simp [h, ends_with_py_append base]

/-! ## C10: a zero timeout is replaced by the configured default -/

/-- C10 (confirmed).  `timeout = timeout or default` sends Python-falsy
values to the default: calling execute_command with timeout 0 behaves
identically to omitting the timeout, so a zero timeout can never be
requested through the public interface. -/
theorem c10_zero_timeout (hist : List ExecutionResult) (cmd ctx : String)
    (approve : Bool) (run : RunOutcome) (elapsed : Int) (d : Int) :
    execute_command_model hist cmd ctx approve run (some 0) elapsed
        = execute_command_model hist cmd ctx approve run none elapsed
    ∧ resolve_timeout (some 0) d = d :=
  ⟨rfl, rfl⟩

/-! ## C7: write/read round-trip of execute_python_code -/

/-- C7 (confirmed).  execute_python_code writes `code` verbatim to the
resolved workspace filename (timestamped when absent, `.py` forced), and
reading that file back yields exactly `code`. -/
theorem c7_roundtrip (fs : List (String × String)) (code : String)
    (filename : Option String) (ts : String) :
    read_file (execute_python_code_fs fs code filename ts).1
        (execute_python_code_fs fs code filename ts).2 = some code
    ∧ ends_with_py (resolve_filename filename ts) = true := by
  constructor
  · simp [execute_python_code_fs, read_file, write_file]
  · simp only [resolve_filename]
    exact ends_with_py_force _

/-! ## C5: the forbidden check takes absolute precedence -/

/-- C5 (confirmed).  Any command whose stripped, lowercased text
contains a forbidden substring is classified FORBIDDEN with
allowed=false and requiresApproval=false, independently of the context
argument; in particular "rm -rf /" gets FORBIDDEN with a non-null
suggested alternative. -/
theorem c5_forbidden_precedence (cmd ctx ctx2 : String)
    (h : is_forbidden (stripList cmd.toList) = true) :
    validate_command cmd ctx =
      { risk_level := .forbidden
        allowed := false
        reason := "Command contains forbidden operations"
        suggested_alternative := suggest_safe_alternative (stripList cmd.toList)
        requires_approval := false }
    ∧ validate_command cmd ctx = validate_command cmd ctx2
    ∧ (validate_command "rm -rf /" ctx).risk_level = RiskLevel.forbidden
    ∧ (validate_command "rm -rf /" ctx).allowed = false
    ∧ (validate_command "rm -rf /" ctx).requires_approval = false
    ∧ (validate_command "rm -rf /" ctx).suggested_alternative ≠ none := by
  have hctx : validate_command "rm -rf /" ctx = validate_command "rm -rf /" "" := rfl
  have h' : is_forbidden (stripList cmd.data) = true := h
  refine ⟨?_, rfl, ?_, ?_, ?_, ?_⟩
  · simp [validate_command, h']
  all_goals rw [hctx]
  all_goals decide

/-- Witness for C5 at the spec's own scenario command. -/
theorem c5_forbidden_precedence_witness :
    is_forbidden (stripList ("rm -rf /").toList) = true
    ∧ (validate_command "rm -rf /" "").risk_level = RiskLevel.forbidden :=
  ⟨by decide, (c5_forbidden_precedence "rm -rf /" "" "other" (by decide)).2.2.1⟩

/-! ## C2: file-operation validation order -/

/-- C2 (counterexample).  The claim says every path touching a system
directory gets FORBIDDEN unconditionally; but the allow-list check runs
first, so "/etc/passwd" — a system path that does not start with an
allow-listed directory — gets DANGER with requiresApproval=true, not
FORBIDDEN. -/
theorem c2_counterexample :
    fileTouchesSystem "/etc/passwd" = true
    ∧ (validate_file_operation "/etc/passwd" "write").risk_level = RiskLevel.danger
    ∧ (validate_file_operation "/etc/passwd" "write").risk_level ≠ RiskLevel.forbidden
    ∧ (validate_file_operation "/etc/passwd" "write").requires_approval = true := by
  decide

/-- C2 (corrected).  Any path outside the allow-listed directories gets
DANGER/requiresApproval=true (system path or not); FORBIDDEN, with no
suggested alternative, is returned only for paths that start with an
allow-listed directory and also touch a system directory. -/
theorem c2_amended (filepath op : String) :
    (fileStartsAllowed filepath = false →
      validate_file_operation filepath op =
        { risk_level := .danger
          allowed := false
          reason := "File operation outside allowed directories: " ++ filepath
          requires_approval := true })
    ∧ (fileStartsAllowed filepath = true → fileTouchesSystem filepath = true →
      validate_file_operation filepath op =
        { risk_level := .forbidden
          allowed := false
          reason := "Access to system directories is forbidden" }) := by
  constructor
  · intro h
    simp [validate_file_operation, h]
  · intro h1 h2
    simp [validate_file_operation, h1, h2]

/-- Witness for C2: one path outside the allow-list, one allow-listed
path that touches a system directory. -/
theorem c2_amended_witness :
    validate_file_operation "/etc/passwd" "write" =
      { risk_level := .danger
        allowed := false
        reason := "File operation outside allowed directories: /etc/passwd"
        requires_approval := true }
    ∧ validate_file_operation "./etc/x" "write" =
      { risk_level := .forbidden
        allowed := false
        reason := "Access to system directories is forbidden" } :=
  ⟨(c2_amended "/etc/passwd" "write").1 (by decide),
   (c2_amended "./etc/x" "write").2 (by decide) (by decide)⟩

/-! ## C1: ordering of the safety gate in execute_command -/

/-- C1 (counterexample).  The claim says a verdict with
requiresApproval=true reaches the human-approval prompt, and -1
SAFETY_VIOLATION happens only when both allowed=false and
requiresApproval=false.  But the allowed=false check runs first:
"sudo ls" yields a DANGER verdict with requiresApproval=true, yet
execute returns -1 SAFETY_VIOLATION without ever invoking the prompt. -/
theorem c1_counterexample :
    (validate_command "sudo ls" "").requires_approval = true
    ∧ (validate_command "sudo ls" "").allowed = false
    ∧ (safety_gate (validate_command "sudo ls" "") "sudo ls" true).approval_requested
        = false
    ∧ ((safety_gate (validate_command "sudo ls" "") "sudo ls" true).blocked.map
        (fun r => (r.exit_code, r.error_type)))
        = some (-1, some "SAFETY_VIOLATION") := by
  decide

/-- C1 (corrected).  Any verdict with allowed=false returns the -1
SAFETY_VIOLATION result immediately, without consulting approval and
before any process is spawned (a `blocked` outcome precedes spawning by
construction); the approval prompt is invoked only for verdicts with
allowed=true and requiresApproval=true, where denial returns the -2
USER_DENIED result and approval proceeds to spawning. -/
theorem c1_amended (v : SafetyVerdict) (cmd ctx : String) (approve : Bool) :
    ((validate_command cmd ctx).allowed = false →
      safety_gate (validate_command cmd ctx) cmd approve =
        { blocked := some (safety_violation_result cmd (validate_command cmd ctx).reason)
          approval_requested := false })
    ∧ (v.allowed = true → v.requires_approval = true →
        (safety_gate v cmd approve).approval_requested = true
        ∧ (approve = false →
            (safety_gate v cmd approve).blocked = some (user_denied_result cmd))
        ∧ (approve = true → (safety_gate v cmd approve).blocked = none)) := by
  constructor
  · intro h
    simp [safety_gate, h]
  · intro h1 h2
    refine ⟨?_, ?_, ?_⟩
    · simp [safety_gate, h1, h2]
      cases approve <;> simp
    · intro h3
      simp [safety_gate, h1, h2, h3]
    · intro h3
      simp [safety_gate, h1, h2, h3]

/-- Witness for C1: the amended behaviour at a concrete blocked command
and at a concrete approval-requiring verdict that is denied. -/
theorem c1_amended_witness :
    (safety_gate (validate_command "sudo ls" "") "sudo ls" false).blocked
        = some (safety_violation_result "sudo ls"
            "Command requires human approval due to system modification risk")
    ∧ (safety_gate
          { risk_level := RiskLevel.danger
            allowed := true
            reason := "needs approval"
            requires_approval := true } "x" false).blocked
        = some (user_denied_result "x") := by
  constructor
  · have h := (c1_amended
      { risk_level := RiskLevel.danger
        allowed := true
        reason := "needs approval"
        requires_approval := true } "sudo ls" "" false).1 (by decide)
    rw [h]
    decide
  · exact ((c1_amended
      { risk_level := RiskLevel.danger
        allowed := true
        reason := "needs approval"
        requires_approval := true } "x" "" false).2 rfl rfl).2.1 rfl

/-! ## C6: the package blocklist matches whole tokens only -/

/-- C6 (counterexample).  The claim says every install whose package
token has a bare name in the blocklist gets DANGER, never CAUTION.  But
the source compares the whole token against the blocklist, so the
version-pinned "pip install os==1.0" — whose bare name "os" is
blocklisted — matches the pinned safe pattern and gets CAUTION with
allowed=true. -/
theorem c6_counterexample :
    ("os" : String) ∈ dangerous_packages
    ∧ specBareName "os==1.0" = "os"
    ∧ (validate_command "pip install os==1.0" "").risk_level = RiskLevel.caution
    ∧ (validate_command "pip install os==1.0" "").allowed = true := by
  decide

/-- C6 (corrected).  The blocklist check compares the entire package
token (lowercased): if the non-flag package tokens begin with tokens
that pass both blocklist and pattern checks and then one whose whole
token is blocklisted, the pip validator returns DANGER with
allowed=false and requiresApproval=true; version-pinned forms of
blocklisted names instead pass as CAUTION.  The spec's scenarios hold:
"pip install requests" is CAUTION/allowed and "pip install os" is
DANGER/requiresApproval. -/
theorem c6_amended (allp ps qs : List (List Char)) (p : List Char)
    (hp : isDangerousPackage p = true)
    (hprev : ∀ q ∈ ps, isDangerousPackage q = false ∧ matchesSafePattern q = true) :
    validatePackages allp (ps ++ p :: qs) = dangerPackageVerdict p
    ∧ (validate_command "pip install requests" "").risk_level = RiskLevel.caution
    ∧ (validate_command "pip install requests" "").allowed = true
    ∧ (validate_command "pip install os" "").risk_level = RiskLevel.danger
    ∧ (validate_command "pip install os" "").requires_approval = true := by
  refine ⟨?_, by decide, by decide, by decide, by decide⟩
  induction ps with
  | nil => simp [validatePackages, hp]
  | cons q rest ih =>
    obtain ⟨h1, h2⟩ := hprev q (by simp)
    simpa [validatePackages, h1, h2] using ih (fun r hr => hprev r (by simp [hr]))

/-- Witness for C6 at the spec's scenario package list. -/
theorem c6_amended_witness :
    validatePackages ["os".toList] ["os".toList]
        = dangerPackageVerdict "os".toList :=
  (c6_amended ["os".toList] [] [] "os".toList (by decide)
    (fun _ hq => absurd hq (List.not_mem_nil _))).1

/-! ## Loop invariant lemmas -/

/-- The repair loop never touches the error list. -/
theorem repairLoop_fst_errors (env : LoopEnv) (code fn : String)
    (pkgs : List String) :
    ∀ acc : LoopAcc,
      ((repairLoop env code fn acc pkgs).1).errors_encountered
        = acc.errors_encountered := by
  induction pkgs with
  | nil => intro acc; rfl
  | cons pkg rest ih =>
    intro acc
    by_cases hi : env.install pkg
    · by_cases hr :
        (env.exec (acc.packages_installed ++ [pkg]) code (fn ++ "_retry")).success
      · simp [repairLoop, hi, hr]
      · simp [repairLoop, hi, hr, ih]
    · simp [repairLoop, hi, ih]

/-- The repair loop never touches the Coder-call counter. -/
theorem repairLoop_fst_coder_calls (env : LoopEnv) (code fn : String)
    (pkgs : List String) :
    ∀ acc : LoopAcc,
      ((repairLoop env code fn acc pkgs).1).coder_calls = acc.coder_calls := by
  induction pkgs with
  | nil => intro acc; rfl
  | cons pkg rest ih =>
    intro acc
    by_cases hi : env.install pkg
    · by_cases hr :
        (env.exec (acc.packages_installed ++ [pkg]) code (fn ++ "_retry")).success
      · simp [repairLoop, hi, hr]
      · simp [repairLoop, hi, hr, ih]
    · simp [repairLoop, hi, ih]

/-- The repair loop only appends to the installed-package list. -/
theorem repairLoop_fst_packages_prefix (env : LoopEnv) (code fn : String)
    (pkgs : List String) :
    ∀ acc : LoopAcc,
      acc.packages_installed
        <+: ((repairLoop env code fn acc pkgs).1).packages_installed := by
  induction pkgs with
  | nil => intro acc; exact List.prefix_rfl
  | cons pkg rest ih =>
    intro acc
    by_cases hi : env.install pkg
    · by_cases hr :
        (env.exec (acc.packages_installed ++ [pkg]) code (fn ++ "_retry")).success
      · simp [repairLoop, hi, hr]
      · simp only [repairLoop, hi, hr, if_true, if_false, Bool.false_eq_true]
        refine List.IsPrefix.trans (List.prefix_append _ [pkg]) ?_
        simpa [hr] using ih { acc with
          packages_installed := acc.packages_installed ++ [pkg],
          execution_results := acc.execution_results
            ++ [env.exec (acc.packages_installed ++ [pkg]) code (fn ++ "_retry")] }
    · simp [repairLoop, hi, ih]

/-- Combined loop invariant: within one run the error and package lists
only grow, the Coder is called at most once per remaining iteration, and
the reported iteration count never exceeds the bound. -/
theorem runIters_mono (env : LoopEnv) (M : Nat) (idxs : List Nat) :
    ∀ acc : LoopAcc,
      acc.errors_encountered
          <+: (runIters env M acc idxs).result.errors_encountered
      ∧ acc.packages_installed
          <+: (runIters env M acc idxs).result.packages_installed
      ∧ (runIters env M acc idxs).coder_calls ≤ acc.coder_calls + idxs.length
      ∧ ((∀ i ∈ idxs, i + 1 ≤ M) →
          (runIters env M acc idxs).result.iterations ≤ M) := by
  induction idxs with
  | nil =>
    intro acc
    exact ⟨List.prefix_rfl, List.prefix_rfl, by simp [runIters],
      fun _ => by simp [runIters]⟩
  | cons i rest ih =>
    intro acc
    simp only [runIters]
    split
    · refine ⟨by simp, by simp, by simp, ?_⟩
      intro hb
      simp only
      exact hb i (by simp)
    · split
      · refine ⟨by simp, by simp, by simp, ?_⟩
        intro hb
        simp only
        exact hb i (by simp)
      · split
        · split
          · rename_i acc4 out heq
            have h1 := congrArg (fun x => x.1.errors_encountered) heq
            have h2 := congrArg (fun x => x.1.packages_installed) heq
            have h3 := congrArg (fun x => x.1.coder_calls) heq
            simp only at h1 h2 h3
            rw [repairLoop_fst_errors] at h1
            rw [repairLoop_fst_coder_calls] at h3
            simp only at h1 h3
            refine ⟨?_, ?_, ?_, ?_⟩
            · simp only [← h1]
              simp
            · have hpk := repairLoop_fst_packages_prefix env
                (env.coder i acc.errors_encountered) (iterFilename i)
                (extract_missing_packages
                  (env.exec acc.packages_installed
                    (env.coder i acc.errors_encountered) (iterFilename i)).stderr)
                { acc with
                  coder_calls := acc.coder_calls + 1,
                  last_code := env.coder i acc.errors_encountered,
                  execution_results := acc.execution_results
                    ++ [env.exec acc.packages_installed
                        (env.coder i acc.errors_encountered) (iterFilename i)],
                  errors_encountered := acc.errors_encountered
                    ++ [(env.exec acc.packages_installed
                        (env.coder i acc.errors_encountered) (iterFilename i)).stderr] }
              rw [heq] at hpk
              simp only at hpk
              simpa using hpk
            · simp only [← h3]
              simp
            · intro hb
              simp only
              exact hb i (by simp)
          · rename_i acc4 heq
            have h1 := congrArg (fun x => x.1.errors_encountered) heq
            have h3 := congrArg (fun x => x.1.coder_calls) heq
            simp only at h1 h3
            rw [repairLoop_fst_errors] at h1
            rw [repairLoop_fst_coder_calls] at h3
            simp only at h1 h3
            have ihacc := ih acc4
            refine ⟨?_, ?_, ?_, ?_⟩
            · refine List.IsPrefix.trans ?_ ihacc.1
              rw [← h1]
              exact List.prefix_append _ _
            · have hpk := repairLoop_fst_packages_prefix env
                (env.coder i acc.errors_encountered) (iterFilename i)
                (extract_missing_packages
                  (env.exec acc.packages_installed
                    (env.coder i acc.errors_encountered) (iterFilename i)).stderr)
                { acc with
                  coder_calls := acc.coder_calls + 1,
                  last_code := env.coder i acc.errors_encountered,
                  execution_results := acc.execution_results
                    ++ [env.exec acc.packages_installed
                        (env.coder i acc.errors_encountered) (iterFilename i)],
                  errors_encountered := acc.errors_encountered
                    ++ [(env.exec acc.packages_installed
                        (env.coder i acc.errors_encountered) (iterFilename i)).stderr] }
              rw [heq] at hpk
              simp only at hpk
              exact List.IsPrefix.trans (by simpa using hpk) ihacc.2.1
            · have := ihacc.2.2.1
              rw [← h3] at this
              simp at this ⊢
              omega
            · intro hb
              exact ihacc.2.2.2 (fun j hj => hb j (by simp [hj]))
        · have ihacc := ih { acc with
            coder_calls := acc.coder_calls + 1,
            last_code := env.coder i acc.errors_encountered,
            execution_results := acc.execution_results
              ++ [env.exec acc.packages_installed
                  (env.coder i acc.errors_encountered) (iterFilename i)],
            errors_encountered := acc.errors_encountered
              ++ [(env.exec acc.packages_installed
                  (env.coder i acc.errors_encountered) (iterFilename i)).stderr] }
          refine ⟨?_, ?_, ?_, ?_⟩
          · have h := ihacc.1
            simp only at h
            exact List.IsPrefix.trans (List.prefix_append _ _) h
          · simpa using ihacc.2.1
          · have := ihacc.2.2.1
            simp at this ⊢
            omega
          · intro hb
            simpa using ihacc.2.2.2 (fun j hj => hb j (by simp [hj]))

/-! ## C4: loop termination and the Coder sentinel -/

/-- C4 (confirmed).  run(task, maxIterations=N) with N >= 1 performs at
most N Coder calls and reports iterations <= N; a Coder sentinel failure
on iteration 0 terminates the run after exactly one Coder call with
success=false (and no execution at all). -/
theorem c4_termination (env : LoopEnv) (N : Nat) (hN : 1 ≤ N) :
    (autonomous_develop_with_execution env N).coder_calls ≤ N
    ∧ (autonomous_develop_with_execution env N).result.iterations ≤ N
    ∧ (startsWithError (env.coder 0 []) = true →
        (autonomous_develop_with_execution env N).coder_calls = 1
        ∧ (autonomous_develop_with_execution env N).result.success = false
        ∧ (autonomous_develop_with_execution env N).result.iterations = 1
        ∧ (autonomous_develop_with_execution env N).result.execution_results = []) := by
  have hmono := runIters_mono env N (List.range N) {}
  refine ⟨?_, ?_, ?_⟩
  · simpa [autonomous_develop_with_execution] using hmono.2.2.1
  · exact hmono.2.2.2 (fun i hi => by
      have := List.mem_range.mp hi
      omega)
  · intro hsent
    obtain ⟨k, rfl⟩ : ∃ k, N = k + 1 := ⟨N - 1, by omega⟩
    simp only [autonomous_develop_with_execution, List.range_succ_eq_map]
    simp [runIters, hsent]

/-- Witness for C4 on the stubbed always-failing Coder. -/
theorem c4_termination_witness :
    (autonomous_develop_with_execution errEnv 1).coder_calls = 1
    ∧ (autonomous_develop_with_execution errEnv 1).result.success = false
    ∧ (autonomous_develop_with_execution errEnv 1).result.iterations = 1 := by
  obtain ⟨h1, h2, h3, -⟩ := (c4_termination errEnv 1 (by decide)).2.2 (by decide)
  exact ⟨h1, h2, h3⟩

/-! ## C3: automatic dependency repair -/

/-- C3 (confirmed).  When iteration 0's execution fails with
MISSING_MODULE and the extracted missing package installs successfully,
the very same generated code is re-executed once (no re-generation: one
Coder call in total); when that retry succeeds the run terminates
successfully with the retry's stdout, within 1 generation iteration
plus exactly one repair retry, and packagesInstalled = [p]. -/
theorem c3_auto_repair (env : LoopEnv) (N : Nat) (p : String) (hN : 1 ≤ N)
    (hcode : startsWithError (env.coder 0 []) = false)
    (hfail : (env.exec [] (env.coder 0 []) (iterFilename 0)).success = false)
    (hmm : (env.exec [] (env.coder 0 []) (iterFilename 0)).error_type
        = some "MISSING_MODULE")
    (hextract : extract_missing_packages
        (env.exec [] (env.coder 0 []) (iterFilename 0)).stderr = [p])
    (hinstall : env.install p = true)
    (hretry : (env.exec [p] (env.coder 0 [])
        (iterFilename 0 ++ "_retry")).success = true) :
    autonomous_develop_with_execution env N =
      { result :=
          { success := true
            final_code := env.coder 0 []
            execution_results :=
              [env.exec [] (env.coder 0 []) (iterFilename 0),
               env.exec [p] (env.coder 0 []) (iterFilename 0 ++ "_retry")]
            iterations := 1
            final_output :=
              (env.exec [p] (env.coder 0 []) (iterFilename 0 ++ "_retry")).stdout
            errors_encountered :=
              [(env.exec [] (env.coder 0 []) (iterFilename 0)).stderr]
            packages_installed := [p] }
        coder_calls := 1 } := by
  obtain ⟨k, rfl⟩ : ∃ k, N = k + 1 := ⟨N - 1, by omega⟩
  simp only [autonomous_develop_with_execution, List.range_succ_eq_map]
  simp [runIters, repairLoop, hcode, hfail, hmm, hextract, hinstall, hretry]

/-- Witness for C3 on the spec's stubbed scenario: code importing foo
fails until foo is installed, then the retry succeeds. -/
theorem c3_auto_repair_witness :
    (autonomous_develop_with_execution repairEnv 1).result.success = true
    ∧ (autonomous_develop_with_execution repairEnv 1).result.iterations = 1
    ∧ (autonomous_develop_with_execution repairEnv 1).result.packages_installed
        = ["foo"]
    ∧ (autonomous_develop_with_execution repairEnv 1).result.final_output = "ok"
    ∧ (autonomous_develop_with_execution repairEnv 1).result.execution_results
        = [fooFailRun, okRun] := by
  have h := c3_auto_repair repairEnv 1 "foo" (by decide) (by decide) (by decide)
    (by decide) (by decide) (by decide) (by decide)
  rw [h]
  decide

/-! ## C9: monotone accumulators, deduplication only per extraction -/

/-- Folding names in while skipping those already present keeps the
accumulator duplicate-free. -/
theorem pyDedup_nodup_aux :
    ∀ (l acc : List String), acc.Nodup →
      (l.foldl (fun a s => if s ∈ a then a else a ++ [s]) acc).Nodup := by
  intro l
  induction l with
  | nil => exact fun acc h => h
  | cons s rest ih =>
    intro acc h
    simp only [List.foldl]
    by_cases hs : s ∈ acc
    · simpa [hs] using ih acc h
    · have hnew : (acc ++ [s]).Nodup := by
        simp [List.nodup_append, h, hs]
      simpa [hs] using ih (acc ++ [s]) hnew

/-- The per-call extraction result has no duplicates. -/
theorem pyDedup_nodup (l : List String) : (pyDedup l).Nodup :=
  pyDedup_nodup_aux l [] List.nodup_nil

/-- C9 (counterexample).  The claim says packagesInstalled is
deduplicated, each name at most once.  With an installer that succeeds
but code that keeps failing on the same missing module, two iterations
install "foo" twice: the final packagesInstalled is ["foo", "foo"]. -/
theorem c9_counterexample :
    (autonomous_develop_with_execution stuckEnv 2).result.packages_installed
        = ["foo", "foo"]
    ∧ ¬ (autonomous_develop_with_execution stuckEnv 2).result.packages_installed.Nodup := by
  have h : (autonomous_develop_with_execution stuckEnv 2).result.packages_installed
      = ["foo", "foo"] := by decide
  exact ⟨h, by rw [h]; decide⟩

/-- C9 (corrected).  Within one run the accumulating lists only grow —
errorsEncountered and packagesInstalled at any point of the loop are
prefixes of the final ones, never reset — and each single
extract_missing_packages call returns duplicate-free names; but the same
package may be appended again on a later iteration, so packagesInstalled
as a whole is not deduplicated. -/
theorem c9_amended (env : LoopEnv) (M : Nat) (idxs : List Nat) (acc : LoopAcc) :
    (acc.errors_encountered
        <+: (runIters env M acc idxs).result.errors_encountered
      ∧ acc.packages_installed
        <+: (runIters env M acc idxs).result.packages_installed)
    ∧ ∀ s : String, (extract_missing_packages s).Nodup :=
  ⟨⟨(runIters_mono env M idxs acc).1, (runIters_mono env M idxs acc).2.1⟩,
   fun _ => pyDedup_nodup _⟩

/-! ## C8: which results enter the execution history -/

/-- C8 (counterexample).  The claim says every result, including
safety-blocked and timeout ones, is appended to the history.  Starting
from an empty history, a blocked "rm -rf /" and a timed-out "ls" both
return results while leaving the history empty. -/
theorem c8_counterexample :
    (execute_command_model [] "rm -rf /" "" true
        (RunOutcome.completed "" "" 0) none 0).2 = []
    ∧ (execute_command_model [] "rm -rf /" "" true
        (RunOutcome.completed "" "" 0) none 0).1.exit_code = -1
    ∧ (execute_command_model [] "ls" "" true RunOutcome.timedOut none 0).2 = []
    ∧ (execute_command_model [] "ls" "" true RunOutcome.timedOut none 0).1.error_type
        = some "TIMEOUT" := by
  decide

/-- C8 (corrected).  The history only grows, by at most the one result
just created; safety-blocked and user-denied results (the gate cases),
timeout results and engine-error (raised-exception) results are all
returned to the caller without being recorded; and the history is
extended exactly when the command passed the gate and the spawned
process completed normally — so only completed-execution results are
ever appended. -/
theorem c8_amended (hist : List ExecutionResult) (cmd ctx : String) (approve : Bool)
    (run : RunOutcome) (t : Option Int) (el : Int) :
    ((execute_command_model hist cmd ctx approve run t el).2 = hist
      ∨ (execute_command_model hist cmd ctx approve run t el).2
          = hist ++ [(execute_command_model hist cmd ctx approve run t el).1])
    ∧ hist <+: (execute_command_model hist cmd ctx approve run t el).2
    ∧ ((safety_gate (validate_command cmd ctx) cmd approve).blocked ≠ none →
        (execute_command_model hist cmd ctx approve run t el).2 = hist)
    ∧ ((safety_gate (validate_command cmd ctx) cmd approve).blocked = none →
        ∀ out err code, run = RunOutcome.completed out err code →
          (execute_command_model hist cmd ctx approve run t el).2
            = hist ++ [(execute_command_model hist cmd ctx approve run t el).1])
    ∧ (run = RunOutcome.timedOut →
        (execute_command_model hist cmd ctx approve run t el).2 = hist)
    ∧ (∀ msg, run = RunOutcome.raised msg →
        (execute_command_model hist cmd ctx approve run t el).2 = hist)
    ∧ ((execute_command_model hist cmd ctx approve run t el).2
          = hist ++ [(execute_command_model hist cmd ctx approve run t el).1]
        ↔ (safety_gate (validate_command cmd ctx) cmd approve).blocked = none
          ∧ ∃ out err code, run = RunOutcome.completed out err code) := by
  rcases hgate : (safety_gate (validate_command cmd ctx) cmd approve).blocked with _ | r
  · cases run with
    | completed out err code =>
      refine ⟨Or.inr ?_, ?_, ?_, ?_, ?_, ?_, ?_⟩ <;>
        simp [execute_command_model, hgate, List.prefix_append]
    | timedOut =>
      refine ⟨Or.inl ?_, ?_, ?_, ?_, ?_, ?_, ?_⟩ <;>
        simp [execute_command_model, hgate]
    | raised msg =>
      refine ⟨Or.inl ?_, ?_, ?_, ?_, ?_, ?_, ?_⟩ <;>
        simp [execute_command_model, hgate]
  · refine ⟨Or.inl ?_, ?_, ?_, ?_, ?_, ?_, ?_⟩ <;>
      simp [execute_command_model, hgate]

/-- Witness for C8: a blocked command leaves the history unchanged; a
completed safe command appends exactly its own result; a safe command
whose execution raises an engine error leaves the history unchanged. -/
theorem c8_amended_witness :
    (execute_command_model [] "rm -rf /" "" true
        (RunOutcome.completed "a" "" 0) none 0).2 = []
    ∧ (execute_command_model [] "ls" "" true
        (RunOutcome.completed "a" "" 0) none 0).2
      = [(execute_command_model [] "ls" "" true
          (RunOutcome.completed "a" "" 0) none 0).1]
    ∧ (execute_command_model [] "ls" "" true
        (RunOutcome.raised "boom") none 0).2 = [] := by
  refine ⟨?_, ?_, ?_⟩
  · exact (c8_amended [] "rm -rf /" "" true
      (RunOutcome.completed "a" "" 0) none 0).2.2.1 (by decide)
  · have h := (c8_amended [] "ls" "" true
      (RunOutcome.completed "a" "" 0) none 0).2.2.2.1 (by decide) "a" "" 0 rfl
    simpa using h
  · exact (c8_amended [] "ls" "" true
      (RunOutcome.raised "boom") none 0).2.2.2.2.2.1 "boom" rfl

end Autocoder
